import Mathlib

/-
Verification of the note-store and playback logic of the React Native
Audio Recorder application (screens: src/app/index.tsx, src/app/list.tsx,
src/app/note/[id].tsx, src/app/note/audioDetails.tsx, and the unnamed
screen variants under src/unnamed/).

The embedding translates the persistent data model (the JSON array of
VoiceNote records in notes.json) and the pure list transformations each
screen performs on it.  The id field is a time-based decimal string
(Date.now().toString() or a fixed tag around it); since the map from a
natural number to its decimal string is injective, ids are modelled as
the underlying natural number, so equality of modelled ids coincides
with the string equality tests (n.id === id) in the source.
-/

namespace AudioRecorder

/-- VoiceNote record, from the interface declared in src/app/list.tsx and
src/unnamed/part_001 (fields id, uri, name, date, duration, optional
starred, optional missing). -/
structure VoiceNote where
  id : Nat
  uri : String
  name : String
  date : String
  duration : Nat
  starred : Option Bool := none
  missing : Option Bool := none
  deriving Repr, DecidableEq

/-- From src/app/index.tsx stopRecording (lines 160-170): the persisted
list is read from notes.json when the file exists (otherwise the empty
list is used), and the new note is pushed at the front with
list.unshift(note); src/unnamed/part_001 line 509 does the same with
updatedNotes = [note, ...notes]. -/
def stopRecordingStore (existing : Option (List VoiceNote)) (note : VoiceNote) :
    List VoiceNote :=
  let list := match existing with
    | some l => l
    | none => []
  note :: list

/-- From src/app/note/[id].tsx rename (line 243) and
src/unnamed/part_001 renameNote (lines 753-755): map over the whole
list, replacing only the name of the records whose id matches. -/
def renameNote (list : List VoiceNote) (id : Nat) (name : String) :
    List VoiceNote :=
  list.map (fun n => if n.id == id then { n with name := name } else n)

/-- From src/app/note/audioDetails.tsx toggleStar (lines 84-86) and
src/unnamed/part_001 toggleStar (lines 783-785): map over the whole
list, negating the starred flag of the records whose id matches.  In
the source the flag is the JavaScript negation !n.starred, where an
absent flag behaves as false, hence the getD false. -/
def toggleStarNote (list : List VoiceNote) (id : Nat) : List VoiceNote :=
  list.map (fun n =>
    if n.id == id then { n with starred := some (!(n.starred.getD false)) } else n)

/-- From src/unnamed/part_001 togglePlay (lines 663-666): after a failed
file-existence check the matching record is marked missing: true by a
map over the list; no record is removed. -/
def markMissing (list : List VoiceNote) (id : Nat) : List VoiceNote :=
  list.map (fun n => if n.id == id then { n with missing := some true } else n)

/-- From src/app/note/[id].tsx doDelete (line 221),
src/app/note/audioDetails.tsx deleteNote (line 148) and
src/unnamed/part_001 deleteNote (line 736): the list is rewritten to
list.filter(n => n.id !== id). -/
def deleteNoteList (list : List VoiceNote) (id : Nat) : List VoiceNote :=
  list.filter (fun n => !(n.id == id))

/-- File-system model for the media directory: the set of stored paths,
as a list of uris.  FileSystem.deleteAsync(uri, idempotent) from
doDelete / deleteNote removes the path when present and is a no-op
otherwise. -/
def deleteMediaFile (fs : List String) (uri : String) : List String :=
  fs.filter (fun u => !(u == uri))

/-- From src/app/note/[id].tsx loadNote (line 53) and
src/app/note/audioDetails.tsx loadNote (line 60): the reload of a note
after a mutation is list.find(n => n.id === id) over the freshly read
file. -/
def loadNote (list : List VoiceNote) (id : Nat) : Option VoiceNote :=
  list.find? (fun n => n.id == id)

/-- Modelled from the ECMAScript builtin String.prototype.toLowerCase
used by the search filter: every character is lowered. -/
def jsToLower (s : String) : String := String.mk (s.toList.map Char.toLower)

/-- Modelled from the ECMAScript builtin String.prototype.includes used
by the search filter: true exactly when the needle occurs as a
contiguous substring of the haystack (checked at every start index). -/
def jsIncludes (hay needle : String) : Bool :=
  (List.range (hay.toList.length + 1)).any
    (fun i => needle.toList.isPrefixOf (hay.toList.drop i))

/-- From src/app/list.tsx lines 288-292 and src/unnamed/part_001
filteredNotes (lines 49-53): the list screen renders
notes.filter(n => n.name.toLowerCase().includes(search.toLowerCase())). -/
def filteredNotes (notes : List VoiceNote) (search : String) :
    List VoiceNote :=
  notes.filter (fun n => jsIncludes (jsToLower n.name) (jsToLower search))

/-- Spec-side notion for C4: the search string occurs in the note name
up to case, that is, the lowered name splits around the lowered search
string. -/
def CaseInsensitiveSubstr (needle hay : String) : Prop :=
  ∃ l₁ l₂ : List Char,
    (jsToLower hay).toList = l₁ ++ (jsToLower needle).toList ++ l₂

/-- From src/app/note/audioDetails.tsx Back 10s onPress (line 237):
newPos = Math.max(0, position - 10000).  Positions are millisecond
counts, modelled as integers exactly as JavaScript arithmetic produces
them before the clamp. -/
def backTenSeconds (position : Int) : Int := max 0 (position - 10000)

/-- From src/app/note/audioDetails.tsx Forward 10s onPress (lines
266-269): newPos = Math.min(duration || note.duration, position +
10000); the first argument is the effective duration after the
JavaScript fallback to note.duration. -/
def forwardTenSeconds (effDuration position : Int) : Int :=
  min effDuration (position + 10000)

/-- From src/unnamed/part_001 seekBackward (lines 84-87): newPosition =
Math.max(status.positionMillis - 10000, 0). -/
def seekBackwardPos (positionMillis : Int) : Int :=
  max (positionMillis - 10000) 0

/-- From src/unnamed/part_001 seekForward (lines 61-64): newPosition =
Math.min(status.positionMillis + 10000, status.durationMillis || 0);
the second argument is the effective duration after the fallback to 0. -/
def seekForwardPos (positionMillis effDuration : Int) : Int :=
  min (positionMillis + 10000) effDuration

/-- Playback state of the list screen (src/app/list.tsx): the held
sound reference (the sound state variable, by native handle), the
sounds currently loaded in the native audio layer, the id of the note
being played (playingId), a counter supplying fresh native handles for
Audio.Sound.createAsync, and the note ids of togglePlay invocations
currently suspended at the awaited createAsync call (the runtime is
single-threaded with cooperative suspension at each awaited platform
call, so other events may run while an invocation is suspended). -/
structure PlayerState where
  held : Option Nat
  loaded : List Nat
  playingId : Option Nat
  nextHandle : Nat
  pending : List Nat
  deriving Repr, DecidableEq

/-- Initial screen state: no sound held, nothing loaded, no invocation
in flight. -/
def initialPlayer : PlayerState :=
  { held := none, loaded := [], playingId := none, nextHandle := 0,
    pending := [] }

/-- From src/app/list.tsx togglePlay (lines 86-98): the prefix of the
handler up to the awaited Audio.Sound.createAsync.  If the tapped note
is the one playing and a sound is held, pauseAsync leaves the sound
loaded and held and clears playingId (lines 88-92) and the handler
returns.  Otherwise the held sound, if any, is unloaded and the
reference cleared (lines 94-97), and the invocation suspends at the
createAsync await (line 99), recorded in pending.  (The shorter awaited
unloadAsync is merged into this step; keeping the suspension at
createAsync already admits the overlapping executions.) -/
def tapStep (s : PlayerState) (noteId : Nat) : PlayerState :=
  if s.playingId == some noteId && s.held.isSome then
    { s with playingId := none }
  else
    match s.held with
    | some h =>
      { s with
          loaded := s.loaded.erase h
          held := none
          pending := noteId :: s.pending }
    | none => { s with pending := noteId :: s.pending }

/-- From src/app/list.tsx togglePlay (lines 99-129): the continuation
after createAsync resolves for one suspended invocation (the model
resolves the most recently suspended first; any order produces the
race): a fresh sound is loaded and becomes the held reference and
playingId is set.  The continuation does not re-check the held
reference, exactly as in the source. -/
def resumeStep (s : PlayerState) : PlayerState :=
  match s.pending with
  | [] => s
  | noteId :: rest =>
    { held := some s.nextHandle,
      loaded := s.nextHandle :: s.loaded,
      playingId := some noteId,
      nextHandle := s.nextHandle + 1,
      pending := rest }

/-- From src/app/list.tsx lines 121-125: when playback reports
didJustFinish the sound is unloaded and the reference cleared. -/
def finishStep (s : PlayerState) : PlayerState :=
  match s.held with
  | some h =>
    { s with loaded := s.loaded.erase h, held := none, playingId := none }
  | none => s

/-- From src/app/list.tsx lines 77-81: leaving the screen unloads the
held sound and clears the reference and playingId. -/
def blurStep (s : PlayerState) : PlayerState :=
  match s.held with
  | some h =>
    { s with loaded := s.loaded.erase h, held := none, playingId := none }
  | none => { s with playingId := none }

/-- States of the list screen reachable from mount through the
playback events, with togglePlay split at its createAsync suspension
point so that overlapping handler executions are represented. -/
inductive PlayerReachable : PlayerState → Prop
  | init : PlayerReachable initialPlayer
  | tap (s : PlayerState) (noteId : Nat) :
      PlayerReachable s → PlayerReachable (tapStep s noteId)
  | resume (s : PlayerState) :
      PlayerReachable s → PlayerReachable (resumeStep s)
  | finish (s : PlayerState) :
      PlayerReachable s → PlayerReachable (finishStep s)
  | blur (s : PlayerState) :
      PlayerReachable s → PlayerReachable (blurStep s)

/-- A togglePlay run that completes without interleaving: the handler
starts and its createAsync continuation finishes before any other
event runs.  This is the serialization assumption under which the
single-loaded-sound property holds; the source does not enforce it. -/
def togglePlayRun (s : PlayerState) (noteId : Nat) : PlayerState :=
  resumeStep (tapStep s noteId)

/-- States reachable when every togglePlay invocation runs to
completion before the next event (no overlap). -/
inductive SerialPlayerReachable : PlayerState → Prop
  | init : SerialPlayerReachable initialPlayer
  | run (s : PlayerState) (noteId : Nat) :
      SerialPlayerReachable s → SerialPlayerReachable (togglePlayRun s noteId)
  | finish (s : PlayerState) :
      SerialPlayerReachable s → SerialPlayerReachable (finishStep s)
  | blur (s : PlayerState) :
      SerialPlayerReachable s → SerialPlayerReachable (blurStep s)

/-- The state after: tap on note 1, tap on note 2 while the first
handler is suspended at createAsync, then both creations resolve. -/
def raceState : PlayerState :=
  resumeStep (resumeStep (tapStep (tapStep initialPlayer 1) 2))

/-- The note literal built at recording stop (src/app/index.tsx lines
153-159): id is the Date.now() value observed at stop time, the other
fields come from the recording session. -/
def mkRecordedNote (t : Nat) (uri nm date : String) (dur : Nat) : VoiceNote :=
  { id := t, uri := uri, name := nm, date := date, duration := dur }

/-- Stored lists reachable through the note lifecycle: creation at
recording stop (prepend), rename, star toggle, missing mark, and
delete.  The create step takes the Date.now() value t read at stop
time (src/app/index.tsx line 146; src/unnamed/part_001 line 413)
without any constraint: the source performs no uniqueness check, and
two stops in the same millisecond observe the same value. -/
inductive StoreReachable : List VoiceNote → Prop
  | init : StoreReachable []
  | create (l : List VoiceNote) (t : Nat) (uri nm date : String)
      (dur : Nat) : StoreReachable l →
      StoreReachable (mkRecordedNote t uri nm date dur :: l)
  | rename (l : List VoiceNote) (id : Nat) (nm : String) :
      StoreReachable l → StoreReachable (renameNote l id nm)
  | star (l : List VoiceNote) (id : Nat) :
      StoreReachable l → StoreReachable (toggleStarNote l id)
  | mark (l : List VoiceNote) (id : Nat) :
      StoreReachable l → StoreReachable (markMissing l id)
  | delete (l : List VoiceNote) (id : Nat) :
      StoreReachable l → StoreReachable (deleteNoteList l id)

/-- The note lifecycle under the best-effort freshness assumption:
identical to StoreReachable except that each create draws a Date.now()
value not already used as an id in the list, which is what the
time-based id scheme is intended to provide but the code does not
enforce. -/
inductive FreshStoreReachable : List VoiceNote → Prop
  | init : FreshStoreReachable []
  | create (l : List VoiceNote) (t : Nat) (uri nm date : String)
      (dur : Nat) (ht : t ∉ l.map VoiceNote.id) : FreshStoreReachable l →
      FreshStoreReachable (mkRecordedNote t uri nm date dur :: l)
  | rename (l : List VoiceNote) (id : Nat) (nm : String) :
      FreshStoreReachable l → FreshStoreReachable (renameNote l id nm)
  | star (l : List VoiceNote) (id : Nat) :
      FreshStoreReachable l → FreshStoreReachable (toggleStarNote l id)
  | mark (l : List VoiceNote) (id : Nat) :
      FreshStoreReachable l → FreshStoreReachable (markMissing l id)
  | delete (l : List VoiceNote) (id : Nat) :
      FreshStoreReachable l → FreshStoreReachable (deleteNoteList l id)

/-- A stored list created by two recording stops whose Date.now()
reads both returned 5 (two stops within the same millisecond). -/
def dupStore : List VoiceNote :=
  [mkRecordedNote 5 "u2" "second" "d2" 7, mkRecordedNote 5 "u1" "first" "d1" 6]

/-- Result of the sound-creation retry loop: the returned value (the
created sound by handle, or the error field of the returned object,
null when no attempt ran), the number of attempts performed, and the
total milliseconds slept. -/
structure RetryResult where
  result : Except (Option String) Nat
  attemptsMade : Nat
  delayMs : Nat

/-- Whether a platform call outcome is a success. -/
def exceptOk {ε α : Type} : Except ε α → Bool
  | Except.ok _ => true
  | Except.error _ => false

/-- The error carried by a failed platform call outcome. -/
def exceptErr {ε α : Type} : Except ε α → Option ε
  | Except.ok _ => none
  | Except.error e => some e

/-- From src/app/note/[id].tsx createSoundWithRetries (lines 102-115)
and the identical loop in src/unnamed/part_001 togglePlay (lines
582-599): the for loop over i < attempts tries
Audio.Sound.createAsync, returns the sound on the first success,
otherwise records the error as lastErr, sleeps 120 ms and continues;
after the loop, error lastErr is returned.  outcome i is the platform
result of attempt i; the decreasing fuel is the number of loop
iterations left. -/
def createSoundLoop (outcome : Nat → Except String Nat) :
    Nat → Nat → Option String → RetryResult
  | _, 0, lastErr =>
    { result := Except.error lastErr, attemptsMade := 0, delayMs := 0 }
  | i, fuel + 1, _ =>
    match outcome i with
    | Except.ok s =>
      { result := Except.ok s, attemptsMade := 1, delayMs := 0 }
    | Except.error e =>
      let r := createSoundLoop outcome (i + 1) fuel (some e)
      { result := r.result, attemptsMade := r.attemptsMade + 1,
        delayMs := r.delayMs + 120 }

/-- From src/app/note/[id].tsx createSoundWithRetries (lines 91-100):
before the loop the uri is checked with getInfoAsync; a missing file
returns the ENOENT error without attempting any sound creation. -/
def createSoundWithRetries (fileExists : Bool)
    (outcome : Nat → Except String Nat) (attempts : Nat) : RetryResult :=
  if !fileExists then
    { result := Except.error (some "ENOENT"), attemptsMade := 0, delayMs := 0 }
  else createSoundLoop outcome 0 attempts none

/-- Result of the recording-start retry loop: whether recording
started, attempts performed, total milliseconds slept, and whether the
final-failure alert was shown. -/
structure StartRecResult where
  success : Bool
  attemptsMade : Nat
  delayMs : Nat
  alerted : Bool

/-- From src/unnamed/part_001 startRecording (lines 321-357): while
attempts < maxAttempts, Audio.Recording.createAsync is attempted; a
success returns at once; on failure the error alert is shown when the
failed attempt was the last, otherwise the loop sleeps 300 ms and
retries.  outcome i tells whether attempt i succeeds; the decreasing
argument is maxAttempts minus the attempts already made. -/
def startRecordingLoop (outcome : Nat → Bool) : Nat → Nat → StartRecResult
  | _, 0 =>
    { success := false, attemptsMade := 0, delayMs := 0, alerted := false }
  | i, remaining + 1 =>
    if outcome i then
      { success := true, attemptsMade := 1, delayMs := 0, alerted := false }
    else if remaining == 0 then
      { success := false, attemptsMade := 1, delayMs := 0, alerted := true }
    else
      let r := startRecordingLoop outcome (i + 1) remaining
      { success := r.success, attemptsMade := r.attemptsMade + 1,
        delayMs := r.delayMs + 300, alerted := r.alerted }

/-- The recording-start loop with the hardcoded maxAttempts = 3
(src/unnamed/part_001 line 321). -/
def startRecordingAttempts (outcome : Nat → Bool) : StartRecResult :=
  startRecordingLoop outcome 0 3

/-- Error-handling outcome at one failure site: whether the failure is
caught at the call site, logged to the console, surfaced through a
modal alert, and whether it propagates past the screen. -/
structure ErrorHandling where
  caught : Bool
  logged : Bool
  alerted : Bool
  propagates : Bool
  deriving Repr, DecidableEq

/-- The failure sites of the screens, each a catch block or guarded
check in the source. -/
inductive FailureSite
  /-- src/app/index.tsx lines 82-89: microphone permission denied. -/
  | permissionDenied
  /-- src/app/index.tsx lines 111-113: recording failed to start. -/
  | startRecordingError
  /-- src/app/index.tsx lines 173-175: saving the recording failed. -/
  | saveRecordingError
  /-- src/app/list.tsx lines 130-132: playback failed on the list
  screen. -/
  | listPlaybackError
  /-- src/app/list.tsx lines 164-176: a native seek call failed. -/
  | listSeekError
  /-- src/app/note/[id].tsx lines 62-64: reading the note file failed. -/
  | noteLoadError
  /-- src/app/note/[id].tsx lines 147-148: sound creation failed for a
  reason other than a missing file. -/
  | noteCreateSoundError
  /-- src/app/note/[id].tsx lines 139-146: the backing file is
  missing. -/
  | noteFileMissing
  /-- src/app/note/audioDetails.tsx lines 123-126: playback failed on
  the detail screen. -/
  | notePlaybackError
  /-- src/app/list.tsx line 123: unloading the finished sound failed;
  the rejection is swallowed by .catch with an empty handler. -/
  | listUnloadFinishError
  /-- src/app/note/[id].tsx lines 202-208: unloading the sound on
  unmount failed; the catch block is empty. -/
  | noteUnmountUnloadError
  /-- src/unnamed/part_001 lines 532-543: loadNotes read or parse
  failed; the catch block is empty. -/
  | part1LoadNotesError
  /-- src/unnamed/part_001 lines 703-707: unloading inside the status
  callback failed; the catch block is empty. -/
  | part1CallbackUnloadError
  /-- src/app/note/audioDetails.tsx lines 78-89: the toggleStar file
  read or write failed; there is no handler, so the rejection escapes
  the screen as an unhandled promise rejection. -/
  | detailToggleStarError
  /-- src/app/note/audioDetails.tsx lines 142-152: the deleteNote file
  operations failed; no handler. -/
  | detailDeleteError
  /-- src/app/note/audioDetails.tsx lines 155-166: the renameNote file
  operations failed; no handler. -/
  | detailRenameError
  /-- src/app/list.tsx lines 58-72: the loadNotes read or parse
  failed; no handler. -/
  | listLoadNotesError
  deriving Repr, DecidableEq

/-- Handler behaviour of each failure site, read off the cited code:
Alert.alert marks alerted, console.warn or console.error marks logged;
caught is true when a try/catch, .catch handler or guard encloses the
call, and false when the async call has no handler at all, in which
case the rejection escapes the screen (propagates) as an unhandled
promise rejection. -/
def errorHandling : FailureSite → ErrorHandling
  | FailureSite.permissionDenied =>
    { caught := true, logged := false, alerted := true, propagates := false }
  | FailureSite.startRecordingError =>
    { caught := true, logged := false, alerted := true, propagates := false }
  | FailureSite.saveRecordingError =>
    { caught := true, logged := false, alerted := true, propagates := false }
  | FailureSite.listPlaybackError =>
    { caught := true, logged := true, alerted := false, propagates := false }
  | FailureSite.listSeekError =>
    { caught := true, logged := true, alerted := false, propagates := false }
  | FailureSite.noteLoadError =>
    { caught := true, logged := true, alerted := false, propagates := false }
  | FailureSite.noteCreateSoundError =>
    { caught := true, logged := true, alerted := false, propagates := false }
  | FailureSite.noteFileMissing =>
    { caught := true, logged := false, alerted := true, propagates := false }
  | FailureSite.notePlaybackError =>
    { caught := true, logged := true, alerted := true, propagates := false }
  | FailureSite.listUnloadFinishError =>
    { caught := true, logged := false, alerted := false, propagates := false }
  | FailureSite.noteUnmountUnloadError =>
    { caught := true, logged := false, alerted := false, propagates := false }
  | FailureSite.part1LoadNotesError =>
    { caught := true, logged := false, alerted := false, propagates := false }
  | FailureSite.part1CallbackUnloadError =>
    { caught := true, logged := false, alerted := false, propagates := false }
  | FailureSite.detailToggleStarError =>
    { caught := false, logged := false, alerted := false, propagates := true }
  | FailureSite.detailDeleteError =>
    { caught := false, logged := false, alerted := false, propagates := true }
  | FailureSite.detailRenameError =>
    { caught := false, logged := false, alerted := false, propagates := true }
  | FailureSite.listLoadNotesError =>
    { caught := false, logged := false, alerted := false, propagates := true }

/-- Two concrete notes used to instantiate the frame theorems. -/
def wNote1 : VoiceNote :=
  { id := 1, uri := "u1", name := "first", date := "d1", duration := 5 }

def wNote2 : VoiceNote :=
  { id := 2, uri := "u2", name := "second", date := "d2", duration := 6 }

/-- A concrete stored list: two recordings stopped at the distinct
Date.now() values 1 and 2. -/
def demoStore : List VoiceNote :=
  [mkRecordedNote 2 "u2" "second" "d2" 7,
    mkRecordedNote 1 "u1" "first" "d1" 5]

/-- A concrete attempt schedule for the sound-creation loop: attempt 0
fails, attempt 1 succeeds with sound handle 7. -/
def ocW : Nat → Except String Nat :=
  fun n => if n == 1 then Except.ok 7 else Except.error "boom"

/-- A concrete attempt schedule for the recording-start loop: attempts
0 and 1 fail, attempt 2 succeeds. -/
def recW : Nat → Bool := fun n => n == 2

/-- C1: when a recording is stopped and saved, exactly one new note is
inserted at the front of the persisted list (length grows by one and the
head is the new note), and every previously stored note is preserved
unchanged at its old relative position (position i of the old list is
position i+1 of the new list), so the stored list keeps insertion order
with the newest note first. -/
theorem stopRecording_prepends (existing : List VoiceNote) (note : VoiceNote) :
    (stopRecordingStore (some existing) note).length = existing.length + 1 ∧
    (stopRecordingStore (some existing) note).head? = some note ∧
    (stopRecordingStore (some existing) note).tail = existing ∧
    ∀ i : Nat, (stopRecordingStore (some existing) note)[i + 1]? = existing[i]? := by
  refine ⟨rfl, rfl, rfl, ?_⟩
  intro i
  simp [stopRecordingStore]

/-- Helper: the id-targeted map each mutation performs (rename, star
toggle, missing mark) leaves the record at position i unchanged when its
id differs from the target and applies the field update f when it
matches. -/
theorem mapById_getElem (f : VoiceNote → VoiceNote) (list : List VoiceNote)
    (tid : Nat) (i : Nat) (n m : VoiceNote)
    (hn : list[i]? = some n)
    (hm : (list.map (fun x => if x.id == tid then f x else x))[i]? = some m) :
    (n.id ≠ tid → m = n) ∧ (n.id = tid → m = f n) := by
  rw [List.getElem?_map, hn] at hm
  by_cases h : n.id = tid
  · subst h
    simp only [Option.map_some', Option.some.injEq, beq_self_eq_true,
      if_true] at hm
    exact ⟨fun hne => absurd rfl hne, fun _ => hm.symm⟩
  · have hb : (n.id == tid) = false := by simpa using h
    simp only [Option.map_some', Option.some.injEq, hb, Bool.false_eq_true,
      if_false] at hm
    exact ⟨fun _ => hm.symm, fun he => absurd he h⟩

/-- Helper: find-by-id over an id-targeted map.  When the field update
f preserves the id, searching the mapped list for the target id finds
the same position as searching the original list and returns the
updated record. -/
theorem find?_mapById (f : VoiceNote → VoiceNote)
    (hf : ∀ n : VoiceNote, (f n).id = n.id) (list : List VoiceNote)
    (tid : Nat) :
    ((list.map (fun x => if x.id == tid then f x else x)).find?
        (fun n => n.id == tid)) =
      (list.find? (fun n => n.id == tid)).map f := by
  induction list with
  | nil => rfl
  | cons h t ih =>
    rw [List.map_cons]
    by_cases hb : (h.id == tid) = true
    · rw [if_pos hb, List.find?_cons_of_pos (p := fun (n : VoiceNote) => n.id == tid) _
          (by simp only [hf]; exact hb),
        List.find?_cons_of_pos (p := fun (n : VoiceNote) => n.id == tid) _ hb, Option.map_some']
    · rw [if_neg hb, List.find?_cons_of_neg (p := fun (n : VoiceNote) => n.id == tid) _ hb,
        List.find?_cons_of_neg (p := fun (n : VoiceNote) => n.id == tid) _ hb, ih]

/-- Helper: renaming commutes with the find-by-id reload performed by
loadNote, so the reloaded record carries the new name. -/
theorem loadNote_renameNote (list : List VoiceNote) (tid : Nat) (nm : String) :
    loadNote (renameNote list tid nm) tid =
      (loadNote list tid).map (fun n => { n with name := nm }) :=
  find?_mapById (fun n => { n with name := nm }) (fun _ => rfl) list tid

/-- C2: rename and star toggle rewrite the whole list so that only the
record whose id matches the target changes, and only in the targeted
field: the list length is preserved, the record at every position whose
id differs from the target is unchanged, the matching record differs
only in name (rename) or only in the starred flag, which is negated
(star toggle), and a subsequent reload by id returns the new name. -/
theorem rename_toggleStar_frame (list : List VoiceNote) (tid : Nat) (nm : String) :
    (renameNote list tid nm).length = list.length ∧
    (toggleStarNote list tid).length = list.length ∧
    (∀ i : Nat, ∀ n m : VoiceNote, list[i]? = some n →
      (renameNote list tid nm)[i]? = some m →
      (n.id ≠ tid → m = n) ∧ (n.id = tid → m = { n with name := nm })) ∧
    (∀ i : Nat, ∀ n m : VoiceNote, list[i]? = some n →
      (toggleStarNote list tid)[i]? = some m →
      (n.id ≠ tid → m = n) ∧
      (n.id = tid → m = { n with starred := some (!(n.starred.getD false)) })) ∧
    loadNote (renameNote list tid nm) tid =
      (loadNote list tid).map (fun n => { n with name := nm }) := by
  refine ⟨by simp [renameNote], by simp [toggleStarNote], ?_, ?_,
    loadNote_renameNote list tid nm⟩
  · intro i n m hn hm
    simp only [renameNote] at hm
    exact mapById_getElem _ list tid i n m hn hm
  · intro i n m hn hm
    simp only [toggleStarNote] at hm
    exact mapById_getElem _ list tid i n m hn hm

/-- Witness for C2 at a concrete two-note store: position 1 holds the
note with id 2, rename with target id 2 rewrites exactly that name. -/
theorem rename_toggleStar_frame_witness :
    ([wNote1, wNote2][1]? = some wNote2) ∧
    ((wNote2.id ≠ 2 → ({ wNote2 with name := "z" } : VoiceNote) = wNote2) ∧
      (wNote2.id = 2 →
        ({ wNote2 with name := "z" } : VoiceNote) = { wNote2 with name := "z" })) :=
  ⟨rfl, (rename_toggleStar_frame [wNote1, wNote2] 2 "z").2.2.1 1 wNote2
    { wNote2 with name := "z" } rfl rfl⟩

/-- C3: deleting a note rewrites the stored list to exactly those
records whose id differs from the deleted id (membership is
characterised by that condition), the survivors keep their relative
order (the result is a sublist of the original), the backing media file
is removed from storage, and every other stored file is untouched. -/
theorem deleteNote_removes_exactly (list : List VoiceNote) (fs : List String)
    (target : VoiceNote) :
    (∀ n : VoiceNote,
      n ∈ deleteNoteList list target.id ↔ n ∈ list ∧ n.id ≠ target.id) ∧
    List.Sublist (deleteNoteList list target.id) list ∧
    target.uri ∉ deleteMediaFile fs target.uri ∧
    (∀ u : String, u ≠ target.uri →
      (u ∈ deleteMediaFile fs target.uri ↔ u ∈ fs)) := by
  refine ⟨?_, List.filter_sublist list, ?_, ?_⟩
  · intro n
    simp [deleteNoteList, List.mem_filter]
  · simp [deleteMediaFile, List.mem_filter]
  · intro u hu
    simp [deleteMediaFile, List.mem_filter, hu]

/-- Witness for C3 at a concrete store and file system: deleting the
note with id 2 keeps the note with id 1 and keeps the file u1. -/
theorem deleteNote_removes_exactly_witness :
    (wNote1 ∈ deleteNoteList [wNote1, wNote2] wNote2.id ↔
      wNote1 ∈ [wNote1, wNote2] ∧ wNote1.id ≠ wNote2.id) ∧
    ("u1" ≠ "u2") ∧
    ("u1" ∈ deleteMediaFile ["u1", "u2"] wNote2.uri ↔ "u1" ∈ ["u1", "u2"]) :=
  ⟨(deleteNote_removes_exactly [wNote1, wNote2] ["u1", "u2"] wNote2).1 wNote1,
    by simp,
    (deleteNote_removes_exactly [wNote1, wNote2] ["u1", "u2"] wNote2).2.2.2
      "u1" (by simp [wNote2])⟩

/-- C7: the failed existence check marks the matching record with
missing true and removes nothing: the list length is unchanged, every
record whose id differs from the target is unchanged, and the matching
record keeps its id, uri, name, date, duration and starred fields while
its missing flag becomes true. -/
theorem markMissing_marks_in_place (list : List VoiceNote) (tid : Nat) :
    (markMissing list tid).length = list.length ∧
    (∀ i : Nat, ∀ n m : VoiceNote, list[i]? = some n →
      (markMissing list tid)[i]? = some m →
      (n.id ≠ tid → m = n) ∧
      (n.id = tid → m.missing = some true ∧ m.id = n.id ∧ m.uri = n.uri ∧
        m.name = n.name ∧ m.date = n.date ∧ m.duration = n.duration ∧
        m.starred = n.starred)) := by
  refine ⟨by simp [markMissing], ?_⟩
  intro i n m hn hm
  simp only [markMissing] at hm
  have h := mapById_getElem _ list tid i n m hn hm
  refine ⟨h.1, fun he => ?_⟩
  rw [h.2 he]
  exact ⟨rfl, rfl, rfl, rfl, rfl, rfl, rfl⟩

/-- Witness for C7 at a concrete two-note store: marking id 2 missing
leaves the note with id 1 in place unchanged. -/
theorem markMissing_marks_in_place_witness :
    ([wNote1, wNote2][0]? = some wNote1) ∧
    ((wNote1.id ≠ 2 → wNote1 = wNote1) ∧
      (wNote1.id = 2 → wNote1.missing = some true ∧ wNote1.id = wNote1.id ∧
        wNote1.uri = wNote1.uri ∧ wNote1.name = wNote1.name ∧
        wNote1.date = wNote1.date ∧ wNote1.duration = wNote1.duration ∧
        wNote1.starred = wNote1.starred)) :=
  ⟨rfl, (markMissing_marks_in_place [wNote1, wNote2] 2).2 0 wNote1 wNote1 rfl rfl⟩

/-- Helper: Boolean prefix test as an existential split. -/
theorem isPrefixOf_iff_exists_append (l m : List Char) :
    l.isPrefixOf m = true ↔ ∃ t : List Char, m = l ++ t := by
  induction l generalizing m with
  | nil => simp [List.isPrefixOf]
  | cons a as ih =>
    cases m with
    | nil => simp [List.isPrefixOf]
    | cons b bs =>
      simp only [List.isPrefixOf, Bool.and_eq_true, beq_iff_eq, ih,
        List.cons_append, List.cons.injEq]
      constructor
      · rintro ⟨rfl, t, rfl⟩
        exact ⟨t, rfl, rfl⟩
      · rintro ⟨t, rfl, rfl⟩
        exact ⟨rfl, t, rfl⟩

/-- Helper: the includes model is equivalent to an occurrence split of
the haystack. -/
theorem jsIncludes_iff (hay needle : String) :
    jsIncludes hay needle = true ↔
      ∃ l₁ l₂ : List Char, hay.toList = l₁ ++ needle.toList ++ l₂ := by
  unfold jsIncludes
  rw [List.any_eq_true]
  constructor
  · rintro ⟨i, _, hp⟩
    rw [isPrefixOf_iff_exists_append] at hp
    obtain ⟨t, ht⟩ := hp
    exact ⟨hay.toList.take i, t,
      by rw [List.append_assoc, ← ht, List.take_append_drop]⟩
  · rintro ⟨l₁, l₂, h⟩
    refine ⟨l₁.length, ?_, ?_⟩
    · rw [List.mem_range]
      have hlen : hay.toList.length = l₁.length + (needle.toList.length + l₂.length) := by
        rw [h]
        simp [Nat.add_assoc]
      omega
    · rw [isPrefixOf_iff_exists_append]
      exact ⟨l₂, by rw [h, List.append_assoc, List.drop_left]⟩

/-- Helper: the empty search string matches every name. -/
theorem jsIncludes_empty (hay : String) : jsIncludes hay "" = true := by
  unfold jsIncludes
  rw [List.any_eq_true]
  refine ⟨0, List.mem_range.mpr (Nat.succ_pos _), ?_⟩
  rw [isPrefixOf_iff_exists_append]
  exact ⟨hay.toList, by rw [List.drop_zero]; rfl⟩

/-- C4: the list screen filter selects exactly the notes whose name
contains the search string as a case-insensitive substring, keeps the
selected notes in the relative order of the stored list (the result is
a sublist, never re-sorted), and with the empty search string selects
every note. -/
theorem search_filter_spec (notes : List VoiceNote) (search : String) :
    (∀ n : VoiceNote, n ∈ filteredNotes notes search ↔
      n ∈ notes ∧ CaseInsensitiveSubstr search n.name) ∧
    List.Sublist (filteredNotes notes search) notes ∧
    filteredNotes notes "" = notes := by
  refine ⟨?_, List.filter_sublist notes, ?_⟩
  · intro n
    rw [filteredNotes, List.mem_filter, jsIncludes_iff]
    exact Iff.rfl
  · rw [filteredNotes]
    apply List.filter_eq_self.mpr
    intro a _
    exact jsIncludes_empty (jsToLower a.name)

/-- C10: the plus and minus ten second skip controls always clamp: the
backward skip yields max(0, position - 10000) and is never negative,
and the forward skip yields min(duration, position + 10000) and never
exceeds the effective duration; the same holds for the seekBackward
and seekForward variants of the list screen. -/
theorem skip_controls_clamp (position effDuration : Int) :
    backTenSeconds position = max 0 (position - 10000) ∧
    0 ≤ backTenSeconds position ∧
    forwardTenSeconds effDuration position = min effDuration (position + 10000) ∧
    forwardTenSeconds effDuration position ≤ effDuration ∧
    seekBackwardPos position = max 0 (position - 10000) ∧
    0 ≤ seekBackwardPos position ∧
    seekForwardPos position effDuration = min effDuration (position + 10000) ∧
    seekForwardPos position effDuration ≤ effDuration := by
  refine ⟨rfl, le_max_left 0 _, rfl, min_le_left _ _, max_comm _ 0, ?_, min_comm _ _, min_le_right _ _⟩
  rw [seekBackwardPos, max_comm]
  exact le_max_left 0 _

/-- C6 counterexample: under the cooperative suspension at the awaited
createAsync, a second tap arriving while the first togglePlay is
suspended also observes no held sound; both creations then resolve and
two sounds are loaded at once, refuting the claim that in every
reachable state the screen never holds two loaded sounds. -/
theorem two_sounds_loaded_reachable :
    PlayerReachable raceState ∧ raceState.loaded.length = 2 :=
  ⟨PlayerReachable.resume _ (PlayerReachable.resume _
      (PlayerReachable.tap _ 2 (PlayerReachable.tap _ 1 PlayerReachable.init))),
    by decide⟩

/-- Helper: in every serialized-run state no invocation is suspended
and the loaded sounds are exactly the held reference. -/
theorem serial_player_inv (s : PlayerState) (h : SerialPlayerReachable s) :
    s.pending = [] ∧ s.loaded = s.held.toList := by
  induction h with
  | init => exact ⟨rfl, rfl⟩
  | run s noteId _ ih =>
    obtain ⟨held, loaded, playingId, nextHandle, pending⟩ := s
    obtain ⟨hp, hl⟩ := ih
    have hp2 : pending = [] := hp
    have hl2 : loaded = held.toList := hl
    subst hp2
    subst hl2
    cases held with
    | none =>
      rw [togglePlayRun, tapStep, if_neg (by simp)]
      exact ⟨rfl, rfl⟩
    | some hd =>
      rw [togglePlayRun, tapStep]
      by_cases hc : ((playingId == some noteId) && (some hd).isSome) = true
      · rw [if_pos hc]
        exact ⟨rfl, rfl⟩
      · rw [if_neg hc]
        refine ⟨rfl, ?_⟩
        show nextHandle :: List.erase [hd] hd = [nextHandle]
        rw [List.erase_cons_head]
  | finish s _ ih =>
    obtain ⟨held, loaded, playingId, nextHandle, pending⟩ := s
    obtain ⟨hp, hl⟩ := ih
    have hp2 : pending = [] := hp
    have hl2 : loaded = held.toList := hl
    subst hp2
    subst hl2
    cases held with
    | none => exact ⟨rfl, rfl⟩
    | some hd =>
      refine ⟨rfl, ?_⟩
      show List.erase [hd] hd = ([] : List Nat)
      rw [List.erase_cons_head]
  | blur s _ ih =>
    obtain ⟨held, loaded, playingId, nextHandle, pending⟩ := s
    obtain ⟨hp, hl⟩ := ih
    have hp2 : pending = [] := hp
    have hl2 : loaded = held.toList := hl
    subst hp2
    subst hl2
    cases held with
    | none => exact ⟨rfl, rfl⟩
    | some hd =>
      refine ⟨rfl, ?_⟩
      show List.erase [hd] hd = ([] : List Nat)
      rw [List.erase_cons_head]

/-- C6 amended: at most one sound reference is held (the sound state
variable is a single option), and provided each togglePlay invocation
runs to completion before the next event (no tap while one is
suspended at an awaited call), every reachable state has at most one
loaded sound, equal to the held reference.  Without that serialization
assumption overlapping invocations reach a state with two loaded
sounds (see the counterexample). -/
theorem at_most_one_sound (s : PlayerState) (h : SerialPlayerReachable s) :
    s.loaded.length ≤ 1 ∧ s.loaded = s.held.toList := by
  have he := (serial_player_inv s h).2
  refine ⟨?_, he⟩
  rw [he]
  cases s.held with
  | none => exact Nat.zero_le 1
  | some hd => exact Nat.le_refl 1

/-- Witness for C6: the state after a complete, uninterleaved
togglePlay run on note 42 from the initial state is reachable and
holds exactly one loaded sound. -/
theorem at_most_one_sound_witness :
    (togglePlayRun initialPlayer 42).loaded.length ≤ 1 ∧
    (togglePlayRun initialPlayer 42).loaded =
      (togglePlayRun initialPlayer 42).held.toList :=
  at_most_one_sound (togglePlayRun initialPlayer 42)
    (SerialPlayerReachable.run initialPlayer 42 SerialPlayerReachable.init)

/-- Helper: an id-preserving targeted map keeps the id sequence of the
list unchanged. -/
theorem mapById_map_id (f : VoiceNote → VoiceNote)
    (hf : ∀ n : VoiceNote, (f n).id = n.id) (list : List VoiceNote)
    (tid : Nat) :
    ((list.map (fun x => if x.id == tid then f x else x)).map VoiceNote.id)
      = list.map VoiceNote.id := by
  rw [List.map_map]
  apply List.map_congr_left
  intro n _
  by_cases hb : (n.id == tid) = true
  · simp only [Function.comp_apply, if_pos hb, hf]
  · simp only [Function.comp_apply, if_neg hb]

/-- C5 counterexample: the code performs no uniqueness check on the
time-based id, so the trace in which two recording stops observe the
same Date.now() value 5 reaches a stored list with duplicate ids,
refuting the claim that the ids are pairwise distinct in every
reachable state. -/
theorem ids_not_always_distinct :
    StoreReachable dupStore ∧ ¬ (dupStore.map VoiceNote.id).Nodup :=
  ⟨StoreReachable.create _ 5 "u2" "second" "d2" 7
      (StoreReachable.create _ 5 "u1" "first" "d1" 6 StoreReachable.init),
    by decide⟩

/-- C5 amended: provided each recording stop draws a Date.now() value
not already used as an id in the stored list (the best-effort
assumption behind the time-based scheme), the ids of the stored notes
are pairwise distinct in every state reachable through the note
lifecycle operations; rename, star toggle and missing mark preserve
the ids and delete only removes notes, so only creation can introduce
a duplicate. -/
theorem ids_pairwise_distinct (l : List VoiceNote)
    (h : FreshStoreReachable l) : (l.map VoiceNote.id).Nodup := by
  induction h with
  | init => exact List.nodup_nil
  | create l t uri nm date dur ht _ ih =>
    rw [List.map_cons]
    exact List.nodup_cons.mpr ⟨ht, ih⟩
  | rename l id nm _ ih =>
    rw [renameNote,
      mapById_map_id (fun n => { n with name := nm }) (fun _ => rfl)]
    exact ih
  | star l id _ ih =>
    rw [toggleStarNote,
      mapById_map_id
        (fun n => { n with starred := some (!(n.starred.getD false)) })
        (fun _ => rfl)]
    exact ih
  | mark l id _ ih =>
    rw [markMissing,
      mapById_map_id (fun n => { n with missing := some true })
        (fun _ => rfl)]
    exact ih
  | delete l id _ ih =>
    exact List.Nodup.sublist
      (List.Sublist.map VoiceNote.id (List.filter_sublist l)) ih

/-- Witness for C5: the two-recording list with the distinct stop
times 1 and 2 is reachable under the freshness assumption and its ids
are distinct. -/
theorem ids_pairwise_distinct_witness :
    ((demoStore.map VoiceNote.id).Nodup) :=
  ids_pairwise_distinct demoStore
    (FreshStoreReachable.create [mkRecordedNote 1 "u1" "first" "d1" 5]
      2 "u2" "second" "d2" 7 (by decide)
      (FreshStoreReachable.create [] 1 "u1" "first" "d1" 5 (by decide)
        FreshStoreReachable.init))

/-- Helper: one unfolding step of the sound-creation loop. -/
theorem createSoundLoop_succ (oc : Nat → Except String Nat) (i f : Nat)
    (le : Option String) :
    createSoundLoop oc i (f + 1) le =
      match oc i with
      | Except.ok s =>
        { result := Except.ok s, attemptsMade := 1, delayMs := 0 }
      | Except.error e =>
        let r := createSoundLoop oc (i + 1) f (some e)
        { result := r.result, attemptsMade := r.attemptsMade + 1,
          delayMs := r.delayMs + 120 } := rfl

/-- Helper: the sound-creation loop never makes more attempts than its
fuel allows. -/
theorem createSoundLoop_attemptsMade_le (oc : Nat → Except String Nat) :
    ∀ (fuel i : Nat) (le : Option String),
      (createSoundLoop oc i fuel le).attemptsMade ≤ fuel := by
  intro fuel
  induction fuel with
  | zero => intro i le; exact Nat.le_refl 0
  | succ f ih =>
    intro i le
    rw [createSoundLoop_succ]
    cases h : oc i with
    | ok s => exact Nat.succ_le_succ (Nat.zero_le f)
    | error e => exact Nat.succ_le_succ (ih (i + 1) (some e))

/-- Helper: the sound-creation loop returns the result of the first
successful attempt. -/
theorem createSoundLoop_first_success (oc : Nat → Except String Nat) :
    ∀ (fuel j i : Nat) (le : Option String) (v : Nat), j < fuel →
      oc (i + j) = Except.ok v →
      (∀ k, k < j → exceptOk (oc (i + k)) = false) →
      (createSoundLoop oc i fuel le).result = Except.ok v := by
  intro fuel
  induction fuel with
  | zero => intro j i le v hj; exact absurd hj (Nat.not_lt_zero j)
  | succ f ih =>
    intro j i le v hj hok hfail
    rw [createSoundLoop_succ]
    cases j with
    | zero =>
      rw [Nat.add_zero] at hok
      rw [hok]
    | succ j' =>
      have h0 : exceptOk (oc (i + 0)) = false := hfail 0 (Nat.succ_pos j')
      rw [Nat.add_zero] at h0
      cases h : oc i with
      | ok s => rw [h] at h0; exact absurd h0 (by simp [exceptOk])
      | error e =>
        show (createSoundLoop oc (i + 1) f (some e)).result = Except.ok v
        refine ih j' (i + 1) (some e) v (Nat.lt_of_succ_lt_succ hj) ?_ ?_
        · rw [← hok]
          congr 1
          omega
        · intro k hk
          have hkk := hfail (k + 1) (Nat.succ_lt_succ hk)
          rwa [show i + (k + 1) = i + 1 + k from by omega] at hkk

/-- Helper: when every attempt fails, the sound-creation loop uses all
its fuel, sleeps 120 ms per failed attempt, and returns the error of
the last attempt. -/
theorem createSoundLoop_all_fail (oc : Nat → Except String Nat) :
    ∀ (fuel i : Nat) (le : Option String),
      (∀ k, k < fuel → exceptOk (oc (i + k)) = false) →
      (createSoundLoop oc i fuel le).attemptsMade = fuel ∧
      (createSoundLoop oc i fuel le).delayMs = 120 * fuel ∧
      (0 < fuel →
        (createSoundLoop oc i fuel le).result =
          Except.error (exceptErr (oc (i + fuel - 1)))) := by
  intro fuel
  induction fuel with
  | zero =>
    intro i le _
    exact ⟨rfl, rfl, fun h0 => absurd h0 (Nat.lt_irrefl 0)⟩
  | succ f ih =>
    intro i le hfail
    have h0 : exceptOk (oc (i + 0)) = false := hfail 0 (Nat.succ_pos f)
    rw [Nat.add_zero] at h0
    cases h : oc i with
    | ok s => rw [h] at h0; exact absurd h0 (by simp [exceptOk])
    | error e =>
      have hrest : ∀ k, k < f → exceptOk (oc (i + 1 + k)) = false := by
        intro k hk
        have hkk := hfail (k + 1) (Nat.succ_lt_succ hk)
        rwa [show i + (k + 1) = i + 1 + k from by omega] at hkk
      obtain ⟨ha, hd, hr⟩ := ih (i + 1) (some e) hrest
      rw [createSoundLoop_succ, h]
      refine ⟨?_, ?_, ?_⟩
      · show (createSoundLoop oc (i + 1) f (some e)).attemptsMade + 1 = f + 1
        rw [ha]
      · show (createSoundLoop oc (i + 1) f (some e)).delayMs + 120 = 120 * (f + 1)
        rw [hd]
        ring
      · intro _
        show (createSoundLoop oc (i + 1) f (some e)).result =
          Except.error (exceptErr (oc (i + (f + 1) - 1)))
        cases f with
        | zero =>
          show Except.error (some e) =
            Except.error (exceptErr (oc (i + 1 - 1)))
          rw [show i + 1 - 1 = i from by omega, h]
          rfl
        | succ f' =>
          rw [show i + (f' + 1 + 1) - 1 = i + 1 + (f' + 1) - 1 from by omega]
          exact hr (Nat.succ_pos f')

/-- Helper: one unfolding step of the recording-start loop. -/
theorem startRecordingLoop_succ (rec : Nat → Bool) (i f : Nat) :
    startRecordingLoop rec i (f + 1) =
      (if rec i then
        { success := true, attemptsMade := 1, delayMs := 0, alerted := false }
      else if f == 0 then
        { success := false, attemptsMade := 1, delayMs := 0, alerted := true }
      else
        let r := startRecordingLoop rec (i + 1) f
        { success := r.success, attemptsMade := r.attemptsMade + 1,
          delayMs := r.delayMs + 300, alerted := r.alerted }) := rfl

/-- Helper: the recording-start loop never makes more attempts than
maxAttempts. -/
theorem startRecordingLoop_attemptsMade_le (rec : Nat → Bool) :
    ∀ (fuel i : Nat), (startRecordingLoop rec i fuel).attemptsMade ≤ fuel := by
  intro fuel
  induction fuel with
  | zero => intro i; exact Nat.le_refl 0
  | succ f ih =>
    intro i
    rw [startRecordingLoop_succ]
    by_cases h : rec i = true
    · rw [if_pos h]
      exact Nat.succ_le_succ (Nat.zero_le f)
    · rw [if_neg h]
      cases f with
      | zero => exact Nat.le_refl 1
      | succ f' => exact Nat.succ_le_succ (ih (i + 1))

/-- Helper: when every attempt fails, the recording-start loop uses all
its fuel, sleeps 300 ms between consecutive attempts (one fewer sleep
than attempts), does not start recording, and shows the error alert. -/
theorem startRecordingLoop_all_fail (rec : Nat → Bool) :
    ∀ (fuel i : Nat),
      (∀ k, k < fuel → rec (i + k) = false) →
      (startRecordingLoop rec i fuel).success = false ∧
      (startRecordingLoop rec i fuel).attemptsMade = fuel ∧
      (startRecordingLoop rec i fuel).delayMs = 300 * (fuel - 1) ∧
      (0 < fuel → (startRecordingLoop rec i fuel).alerted = true) := by
  intro fuel
  induction fuel with
  | zero =>
    intro i _
    exact ⟨rfl, rfl, rfl, fun h0 => absurd h0 (Nat.lt_irrefl 0)⟩
  | succ f ih =>
    intro i hfail
    have h0 : rec (i + 0) = false := hfail 0 (Nat.succ_pos f)
    rw [Nat.add_zero] at h0
    rw [startRecordingLoop_succ, if_neg (by rw [h0]; exact Bool.false_ne_true)]
    cases f with
    | zero => exact ⟨rfl, rfl, rfl, fun _ => rfl⟩
    | succ f' =>
      have hrest : ∀ k, k < f' + 1 → rec (i + 1 + k) = false := by
        intro k hk
        have hkk := hfail (k + 1) (Nat.succ_lt_succ hk)
        rwa [show i + (k + 1) = i + 1 + k from by omega] at hkk
      obtain ⟨hs, ha, hd, hal⟩ := ih (i + 1) hrest
      rw [if_neg (by simp)]
      refine ⟨hs, ?_, ?_, fun _ => hal (Nat.succ_pos f')⟩
      · show (startRecordingLoop rec (i + 1) (f' + 1)).attemptsMade + 1 = f' + 1 + 1
        rw [ha]
      · show (startRecordingLoop rec (i + 1) (f' + 1)).delayMs + 300 =
          300 * (f' + 1 + 1 - 1)
        rw [hd]
        ring_nf
        omega

/-- Helper: the recording-start loop succeeds as soon as one attempt
succeeds, using exactly the attempts up to and including the first
successful one. -/
theorem startRecordingLoop_first_success (rec : Nat → Bool) :
    ∀ (fuel j i : Nat), j < fuel → rec (i + j) = true →
      (∀ k, k < j → rec (i + k) = false) →
      (startRecordingLoop rec i fuel).success = true ∧
      (startRecordingLoop rec i fuel).attemptsMade = j + 1 := by
  intro fuel
  induction fuel with
  | zero => intro j i hj; exact absurd hj (Nat.not_lt_zero j)
  | succ f ih =>
    intro j i hj hok hfail
    rw [startRecordingLoop_succ]
    cases j with
    | zero =>
      rw [Nat.add_zero] at hok
      rw [if_pos hok]
      exact ⟨rfl, rfl⟩
    | succ j' =>
      have h0 : rec (i + 0) = false := hfail 0 (Nat.succ_pos j')
      rw [Nat.add_zero] at h0
      rw [if_neg (by rw [h0]; exact Bool.false_ne_true)]
      obtain ⟨f', rfl⟩ : ∃ f', f = f' + 1 := ⟨f - 1, by omega⟩
      rw [if_neg (by simp)]
      have hr := ih j' (i + 1) (Nat.lt_of_succ_lt_succ hj)
        (by rwa [show i + 1 + j' = i + (j' + 1) from by omega])
        (by
          intro k hk
          have hkk := hfail (k + 1) (Nat.succ_lt_succ hk)
          rwa [show i + (k + 1) = i + 1 + k from by omega] at hkk)
      refine ⟨hr.1, ?_⟩
      show (startRecordingLoop rec (i + 1) (f' + 1)).attemptsMade + 1 = j' + 1 + 1
      rw [hr.2]

/-- C8: the sound-creation retry loop makes at most 3 attempts,
returns the first successfully created sound, and only after all 3
attempts fail returns the last error, having slept the fixed 120 ms
delay per failed attempt; the recording-start retry loop likewise makes
at most 3 attempts, succeeds at the first successful attempt, and after
3 failures stops with the error alert having slept the fixed 300 ms
delay between consecutive attempts.  Both loops are total functions of
their attempt schedules, so they always terminate within the fixed
attempt count. -/
theorem retry_loops_spec (oc : Nat → Except String Nat) (rec : Nat → Bool) :
    (createSoundWithRetries true oc 3).attemptsMade ≤ 3 ∧
    (startRecordingAttempts rec).attemptsMade ≤ 3 ∧
    (∀ j v : Nat, j < 3 → oc j = Except.ok v →
      (∀ k, k < j → exceptOk (oc k) = false) →
      (createSoundWithRetries true oc 3).result = Except.ok v) ∧
    ((∀ k, k < 3 → exceptOk (oc k) = false) →
      (createSoundWithRetries true oc 3).result =
        Except.error (exceptErr (oc 2)) ∧
      (createSoundWithRetries true oc 3).attemptsMade = 3 ∧
      (createSoundWithRetries true oc 3).delayMs = 120 * 3) ∧
    ((∀ k, k < 3 → rec k = false) →
      (startRecordingAttempts rec).success = false ∧
      (startRecordingAttempts rec).attemptsMade = 3 ∧
      (startRecordingAttempts rec).delayMs = 300 * 2 ∧
      (startRecordingAttempts rec).alerted = true) ∧
    (∀ j : Nat, j < 3 → rec j = true → (∀ k, k < j → rec k = false) →
      (startRecordingAttempts rec).success = true ∧
      (startRecordingAttempts rec).attemptsMade = j + 1) := by
  refine ⟨createSoundLoop_attemptsMade_le oc 3 0 none,
    startRecordingLoop_attemptsMade_le rec 3 0, ?_, ?_, ?_, ?_⟩
  · intro j v hj hok hfail
    exact createSoundLoop_first_success oc 3 j 0 none v hj
      (by rwa [Nat.zero_add]) (fun k hk => by rw [Nat.zero_add]; exact hfail k hk)
  · intro hfail
    have h := createSoundLoop_all_fail oc 3 0 none
      (fun k hk => by rw [Nat.zero_add]; exact hfail k hk)
    exact ⟨h.2.2 (Nat.succ_pos 2), h.1, h.2.1⟩
  · intro hfail
    have h := startRecordingLoop_all_fail rec 3 0
      (fun k hk => by rw [Nat.zero_add]; exact hfail k hk)
    exact ⟨h.1, h.2.1, h.2.2.1, h.2.2.2 (Nat.succ_pos 2)⟩
  · intro j hj hok hfail
    exact startRecordingLoop_first_success rec 3 j 0 hj
      (by rwa [Nat.zero_add]) (fun k hk => by rw [Nat.zero_add]; exact hfail k hk)

/-- Witness for C8: with a schedule whose attempt 0 fails and attempt 1
succeeds with handle 7, the loop returns sound 7; with a schedule whose
attempts 0 and 1 fail and attempt 2 succeeds, recording starts after
exactly 3 attempts. -/
theorem retry_loops_spec_witness :
    (createSoundWithRetries true ocW 3).result = Except.ok 7 ∧
    (startRecordingAttempts recW).success = true ∧
    (startRecordingAttempts recW).attemptsMade = 3 :=
  ⟨(retry_loops_spec ocW recW).2.2.1 1 7 (by omega) rfl
      (by
        intro k hk
        have hk0 : k = 0 := Nat.lt_one_iff.mp hk
        subst hk0
        rfl),
    ((retry_loops_spec ocW recW).2.2.2.2.2 2 (by omega) rfl
      (by
        intro k hk
        have : k = 0 ∨ k = 1 := by omega
        rcases this with rfl | rfl <;> rfl)).1,
    ((retry_loops_spec ocW recW).2.2.2.2.2 2 (by omega) rfl
      (by
        intro k hk
        have : k = 0 ∨ k = 1 := by omega
        rcases this with rfl | rfl <;> rfl)).2⟩

/-- C9 counterexample: each universal part of the claim fails at a
concrete failure site.  The playback error handler of the list screen
(src/app/list.tsx lines 130-132) logs but shows no alert; the
permission-denied handler (src/app/index.tsx lines 84-86) alerts but
does not log; the toggleStar file operations of the detail screen
(src/app/note/audioDetails.tsx lines 78-89) have no handler at all, so
that failure is not even caught at its call site. -/
theorem not_every_failure_alerted :
    (errorHandling FailureSite.listPlaybackError).alerted = false ∧
    (errorHandling FailureSite.permissionDenied).logged = false ∧
    (errorHandling FailureSite.detailToggleStarError).caught = false ∧
    ¬ ∀ site : FailureSite,
      (errorHandling site).caught = true ∧
      (errorHandling site).logged = true ∧
      (errorHandling site).alerted = true := by
  refine ⟨rfl, rfl, rfl, fun h => ?_⟩
  exact absurd (h FailureSite.listPlaybackError).2.2 (by decide)

/-- C9 amended: error handling is per call site rather than uniform.
Every failure that is caught is caught at the call site that triggered
it and does not propagate beyond the screen; among the caught
failures, some are surfaced through a modal alert without a log, some
are logged without an alert, and some are swallowed silently by an
empty catch handler; and a few call sites (the detail-screen star,
delete and rename file operations and the list-screen loadNotes) have
no handler, so a failure there escapes the screen as an unhandled
promise rejection. -/
theorem failures_caught_are_confined :
    (∀ site : FailureSite, (errorHandling site).caught = true →
      (errorHandling site).propagates = false) ∧
    (errorHandling FailureSite.permissionDenied).caught = true ∧
    (errorHandling FailureSite.permissionDenied).alerted = true ∧
    (errorHandling FailureSite.listPlaybackError).caught = true ∧
    (errorHandling FailureSite.listPlaybackError).logged = true ∧
    (errorHandling FailureSite.listUnloadFinishError).caught = true ∧
    (errorHandling FailureSite.listUnloadFinishError).logged = false ∧
    (errorHandling FailureSite.listUnloadFinishError).alerted = false ∧
    (errorHandling FailureSite.detailToggleStarError).caught = false ∧
    (errorHandling FailureSite.detailToggleStarError).propagates = true := by
  refine ⟨?_, rfl, rfl, rfl, rfl, rfl, rfl, rfl, rfl, rfl⟩
  intro site
  cases site <;> decide

/-- Witness for C9: the list-screen playback error site satisfies the
caught hypothesis and is confined to its screen. -/
theorem failures_caught_are_confined_witness :
    (errorHandling FailureSite.listPlaybackError).caught = true ∧
    (errorHandling FailureSite.listPlaybackError).propagates = false :=
  ⟨rfl, failures_caught_are_confined.1 FailureSite.listPlaybackError rfl⟩

end AudioRecorder
